import Mathlib

/-!
Verification of the study-group-frontend client against its specification.

The development shallowly embeds the JavaScript source files
`student/scripts/topicsClient.js` and
`student/scripts/study-group-inside/room-manager.js`.

Modelling conventions:
* JavaScript values are modelled by the inductive type `JSVal`
  (numbers as `Int`: the claims under verification only exercise
  integer-valued `likes` counters and type-of checks, never float
  arithmetic).
* Network and collaborator calls (`fetchJsonWithAuth`, `postJsonWithAuth`,
  Firebase lookups) are modelled as explicit parameters carrying the
  result the call would produce; the calls actually issued are recorded
  in an explicit trace so that "no network call is made" is a provable
  statement.
* JavaScript exceptions are modelled with `Except String`, the `String`
  being the error message; `try/catch` becomes a `match` on the
  `Except` value.
* Property access `x.k` throws a TypeError in JavaScript when `x` is
  `null`/`undefined`; the embedding uses `JSVal.getProp` (which can
  fail) at the program points where the receiver may be nullish, and
  the total `jget` where the receiver has already been checked (and for
  the optional-chaining form `x?.k`).
-/

inductive JSVal where
  | undefined : JSVal
  | null : JSVal
  | bool : Bool → JSVal
  | num : Int → JSVal
  | str : String → JSVal
  | arr : List JSVal → JSVal
  | obj : List (String × JSVal) → JSVal

/-- JavaScript truthiness of a value (`if (v)`). -/
def JSVal.truthy : JSVal → Bool
  | .undefined => false
  | .null => false
  | .bool b => b
  | .num n => n != 0
  | .str s => s != ""
  | .arr _ => true
  | .obj _ => true

/-- The string produced by the JavaScript `typeof` operator. -/
def JSVal.typeofStr : JSVal → String
  | .undefined => "undefined"
  | .null => "object"
  | .bool _ => "boolean"
  | .num _ => "number"
  | .str _ => "string"
  | .arr _ => "object"
  | .obj _ => "object"

/-- `Array.isArray(v)`. -/
def JSVal.isArray : JSVal → Bool
  | .arr _ => true
  | _ => false

/-- Primitive (non-object, non-array) values: on these, strict equality
`===` is structural, which is what `jsStrictEq` below implements. -/
def JSVal.isPrim : JSVal → Bool
  | .undefined => true
  | .null => true
  | .bool _ => true
  | .num _ => true
  | .str _ => true
  | .arr _ => false
  | .obj _ => false

/-- Field lookup in an object literal (first match; the concrete
payloads in this development never carry duplicate keys). -/
def lookupField : List (String × JSVal) → String → Option JSVal
  | [], _ => none
  | (k0, v0) :: fs, k => if k0 == k then some v0 else lookupField fs k

/-- Total property access: `x?.k`, or `x.k` where `x` is known not to be
nullish.  Property access on a primitive yields `undefined` (the claims
never read `length`-style built-ins). -/
def jget (v : JSVal) (k : String) : JSVal :=
  match v with
  | .obj fs => (lookupField fs k).getD .undefined
  | _ => .undefined

/-- Plain property access `x.k`: throws a TypeError when `x` is nullish. -/
def JSVal.getProp (v : JSVal) (k : String) : Except String JSVal :=
  match v with
  | .null => .error ("TypeError: cannot read property " ++ k ++ " of null")
  | .undefined => .error ("TypeError: cannot read property " ++ k ++ " of undefined")
  | _ => .ok (jget v k)

/-- JavaScript `a || b`. -/
def jsOr (a b : JSVal) : JSVal :=
  if a.truthy then a else b

/-- JavaScript strict equality `===` restricted to the value shapes the
claims exercise: structural on primitives; object/array comparisons are
reference equality in JavaScript, which distinct literals never satisfy,
so they are modelled as `false`. -/
def jsStrictEq : JSVal → JSVal → Bool
  | .undefined, .undefined => true
  | .null, .null => true
  | .bool a, .bool b => a == b
  | .num a, .num b => a == b
  | .str a, .str b => a == b
  | _, _ => false

/-- Template-literal stringification of the interpolated values the
source puts into URLs (room/post ids, which are strings in practice). -/
def jsTemplateStr : JSVal → String
  | .str s => s
  | .num n => toString n
  | .null => "null"
  | .undefined => "undefined"
  | .bool b => if b then "true" else "false"
  | .arr _ => ""
  | .obj _ => "[object Object]"

/-- `uid.substring(0, n)`: defined on strings, a thrown TypeError on any
other receiver (calling a missing method). -/
def jsSubstringE (v : JSVal) (n : Nat) : Except String JSVal :=
  match v with
  | .str s => .ok (.str (String.mk (s.toList.take n)))
  | _ => .error "TypeError: substring is not a function"

/-- Property assignment `x.k = v`: updates an object field (insert or
overwrite); on a non-object target the write is silently dropped, as in
non-strict-mode JavaScript. -/
def setField : List (String × JSVal) → String → JSVal → List (String × JSVal)
  | [], k, v => [(k, v)]
  | (k0, v0) :: fs, k, v =>
    if k0 == k then (k0, v) :: fs else (k0, v0) :: setField fs k v

def setProp : JSVal → String → JSVal → JSVal
  | .obj fs, k, v => .obj (setField fs k v)
  | x, _, _ => x

/-- Insertion-order deduplication, as performed by
`Array.from(new Set(xs))`: the first occurrence of each value is kept,
where "same value" is `===`-style equality (`jsStrictEq`).  `seen` holds
the values already emitted. -/
def jsSetDedupAux (seen : List JSVal) : List JSVal → List JSVal
  | [] => []
  | a :: l =>
    if seen.any (fun x => jsStrictEq a x) then jsSetDedupAux seen l
    else a :: jsSetDedupAux (a :: seen) l

def jsSetDedup (l : List JSVal) : List JSVal :=
  jsSetDedupAux [] l

/-! ## topicsClient.js -/

/-- The canonical post record produced by `getTopicPosts`
(`topicsClient.js`, lines 153-166). -/
structure NormalizedPost where
  id : JSVal
  title : JSVal
  content : JSVal
  author : JSVal
  author_id : JSVal
  userId : JSVal
  authorId : JSVal
  created_at : JSVal
  created : JSVal
  likes : JSVal
  comments : JSVal
  author_avatar : JSVal

/-- The body of the `.map` callback in `getTopicPosts` (lines 148-167):
a non-object element maps to `null` (here `none`) and is later filtered
out; `now` stands for `new Date().toISOString()` at normalization time. -/
def normalizePost (now : String) (p : JSVal) : Option NormalizedPost :=
  if !p.truthy || !(p.typeofStr == "object") then none
  else some {
    id := jget p "id"
    title := jsOr (jget p "title") (.str "")
    content := jsOr (jget p "content") (.str "")
    author := jsOr (jget p "author") (.str "Anonymous")
    author_id := jsOr (jget p "author_id") (jsOr (jget p "authorId") .null)
    userId := jsOr (jget p "userId") (jsOr (jget p "author_id") .null)
    authorId := jsOr (jget p "author_id") (jsOr (jget p "authorId") .null)
    created_at := jsOr (jget p "created_at") (jsOr (jget p "created") (.str now))
    created := jsOr (jget p "created_at") (jsOr (jget p "created") (.str now))
    likes := if (jget p "likes").typeofStr == "number" then jget p "likes" else .num 0
    comments := jsOr (jget p "comments") (.num 0)
    author_avatar := jsOr (jget p "author_avatar") .null
  }

/-- The normalization step of `getTopicPosts` (lines 137-174), applied to
the parsed response `resp`.  Mirrors the source exactly:
`let posts = Array.isArray(resp) ? resp : resp.posts || resp;` — note the
plain (throwing) access `resp.posts` — then the array-validation
fallback, then per-element normalization with malformed entries dropped. -/
def getTopicPostsNormalize (now : String) (resp : JSVal) :
    Except String (List NormalizedPost) :=
  match (if resp.isArray then Except.ok resp
         else match resp.getProp "posts" with
              | .error e => .error e
              | .ok pp => .ok (jsOr pp resp)) with
  | .error e => .error e
  | .ok posts0 =>
    let posts := if posts0.isArray then posts0
                 else if resp.truthy && (resp.typeofStr == "object")
                 then .arr [resp] else .arr []
    let elems := match posts with | .arr es => es | _ => []
    .ok (elems.filterMap (normalizePost now))

/-- `getTopicPosts(topicId)` (lines 129-181).  `fetchResult` is the
outcome of the authenticated GET; the try/catch wraps any error —
fetch failure or a TypeError thrown during normalization — into
`GET /api/topics/:id/posts failed: <message>`.  The `topicId` guard
throws before the try block and is therefore not wrapped. -/
def getTopicPosts (topicId : JSVal) (now : String)
    (fetchResult : Except String JSVal) : Except String (List NormalizedPost) :=
  if !topicId.truthy then .error "topicId required"
  else
    match fetchResult with
    | .error e => .error ("GET /api/topics/:id/posts failed: " ++ e)
    | .ok resp =>
      match getTopicPostsNormalize now resp with
      | .error e => .error ("GET /api/topics/:id/posts failed: " ++ e)
      | .ok l => .ok l

/-- JavaScript `msg || "unknown error"` used in error toasts. -/
def msgOr (e : String) : String :=
  if e == "" then "unknown error" else e

/-- The record returned by `togglePostLike` (lines 278-282).  The source
guarantees `likes` is a number, so the field is carried as an `Int`. -/
structure LikeResult where
  liked : Bool
  likes : Int
  post_id : JSVal

/-- REST calls issued by the client, tagged by endpoint.  The trace of
these calls is what "performs zero network calls" and "issues exactly
one join request" quantify over. -/
inductive ApiCall where
  | getRoom : String → ApiCall
  | joinRoom : String → ApiCall
  | kickReq : String → String → ApiCall
  | likePost : String → ApiCall

/-- `togglePostLike(postId)` (`topicsClient.js`, lines 265-290).
`postResult` is the outcome of the single POST; the second component of
the result is the trace of calls issued.  The `!postId` guard throws
before the try block, hence before the POST and unwrapped; inside the
try, a non-true-and-object response throws `Invalid response from
server`, which the catch rewraps as `Toggle like failed: <message>`. -/
def togglePostLike (postId : JSVal) (postResult : Except String JSVal) :
    Except String LikeResult × List ApiCall :=
  if !postId.truthy then (.error "postId required", [])
  else
    let call := ApiCall.likePost (jsTemplateStr postId)
    match postResult with
    | .error e => (.error ("Toggle like failed: " ++ e), [call])
    | .ok resp =>
      if !resp.truthy || !(resp.typeofStr == "object") then
        (.error "Toggle like failed: Invalid response from server", [call])
      else
        (.ok { liked := jsStrictEq (jget resp "liked") (.bool true),
               likes := match jget resp "likes" with | .num n => n | _ => 0,
               post_id := jsOr (jget resp "post_id") postId }, [call])

/-! ## room-manager.js -/

/-- Display info returned by the `userAuth` collaborator
(`getUserDisplayInfo` / entries of `getUserDisplayInfos`). -/
structure DisplayInfo where
  displayName : JSVal
  avatar : JSVal
  photo : JSVal

/-- The external collaborators of `RoomManager` participant enrichment:
the `userAuth` batch and single display-info lookups, the current user's
photo fields, and the Firestore `users` collection photo read.  Each
fallible lookup is an `Except`-valued oracle. -/
structure Collab where
  getUserDisplayInfos : List JSVal → Except String (JSVal → Option DisplayInfo)
  getUserDisplayInfo : JSVal → Except String DisplayInfo
  currentUserPhotoURL : JSVal
  currentUserPhoto : JSVal
  dbUserPhoto : JSVal → Except String JSVal

/-- A participant record as built by `loadParticipantsInfo`
(lines 115-128 and 179-198). -/
structure Participant where
  id : JSVal
  name : JSVal
  avatar : JSVal
  photo : JSVal
  status : String
  isHost : Bool
  inCall : Bool

/-- The mutable fields of a `RoomManager` instance (constructor,
lines 6-12). -/
structure RMState where
  currentRoomData : JSVal
  isOwner : Bool
  participants : List Participant
  isLoading : Bool

/-- The observable side effects of an operation: REST calls issued,
toast notifications shown, and redirects scheduled (target page and
delay in milliseconds). -/
structure Effects where
  calls : List ApiCall
  toasts : List String
  redirects : List (String × Nat)

/-- The try block of the per-participant callback in
`loadParticipantsInfo` (lines 150-187): resolve display info from the
batch map with a single-lookup fallback, resolve the photo (current
user's own fields, else `info.photo`, else a best-effort Firestore read
whose failure is ignored), and build the record.  A thrown error (failed
single lookup, or `uid.substring` on a non-string uid) propagates to the
caller's catch. -/
def buildTry (c : Collab) (infosMap : JSVal → Option DisplayInfo)
    (creator currentUid uid : JSVal) : Except String Participant :=
  match (match infosMap uid with
         | some i => Except.ok i
         | none => match c.getUserDisplayInfo uid with
                   | .ok u => .ok ⟨u.displayName, .str "U", .null⟩
                   | .error e => .error e) with
  | .error e => .error e
  | .ok info =>
    let photo :=
      if jsStrictEq uid currentUid then
        jsOr c.currentUserPhotoURL (jsOr c.currentUserPhoto (jsOr info.photo .null))
      else
        let p0 := jsOr info.photo .null
        if p0.truthy then p0
        else match c.dbUserPhoto uid with
             | .ok dp => if dp.truthy then dp else p0
             | .error _ => p0
    match (if info.displayName.truthy then Except.ok info.displayName
           else jsSubstringE uid 8) with
    | .error e => .error e
    | .ok name =>
      .ok { id := uid, name := name, avatar := jsOr info.avatar (.str "U"),
            photo := photo, status := "online",
            isHost := jsStrictEq creator uid, inCall := false }

/-- The whole per-participant callback (lines 149-200): on any error in
the try block, the catch returns the minimal fallback record — whose own
`uid.substring(0, 8)` can itself throw for a non-string uid, rejecting
the surrounding `Promise.all`. -/
def buildParticipant (c : Collab) (infosMap : JSVal → Option DisplayInfo)
    (creator currentUid uid : JSVal) : Except String Participant :=
  match buildTry c infosMap creator currentUid uid with
  | .ok p => .ok p
  | .error _ =>
    match jsSubstringE uid 8 with
    | .ok nm => .ok { id := uid, name := nm, avatar := .str "U", photo := .null,
                      status := "online", isHost := jsStrictEq creator uid,
                      inCall := false }
    | .error e => .error e

/-- `Promise.all` over the per-participant callbacks: the purely
functional lookups settle independently, and the aggregate rejects
exactly when some element rejects. -/
def mapE (f : JSVal → Except String Participant) :
    List JSVal → Except String (List Participant)
  | [] => .ok []
  | a :: l =>
    match f a with
    | .error e => .error e
    | .ok p =>
      match mapE f l with
      | .error e => .error e
      | .ok ps => .ok (p :: ps)

/-- `loadParticipantsInfo()` (lines 102-208).  `this.participants` is
reset to `[]` first, so the outer catch leaves it empty.  If the room
record has no non-empty participants array, a self-only record is built
(its `isHost` is the cached `this.isOwner`).  Otherwise the uid list is
truthy-filtered, deduplicated via `new Set`, batch-enriched, and mapped
to records.  DOM rendering (`updateParticipantsList`) is external and
not modelled. -/
def loadParticipantsInfo (c : Collab) (currentUid : JSVal) (st : RMState) :
    RMState :=
  match jget st.currentRoomData "participants" with
  | .arr (a :: l) =>
    let elems := a :: l
    let uids := jsSetDedup (elems.filter JSVal.truthy)
    match c.getUserDisplayInfos uids with
    | .error _ => { st with participants := [] }
    | .ok infosMap =>
      match mapE (buildParticipant c infosMap
                    (jget st.currentRoomData "creator") currentUid) uids with
      | .error _ => { st with participants := [] }
      | .ok ps => { st with participants := ps }
  | _ =>
    match c.getUserDisplayInfo currentUid with
    | .error _ => { st with participants := [] }
    | .ok info =>
      { st with participants := [
          { id := currentUid, name := info.displayName, avatar := info.avatar,
            photo := jsOr c.currentUserPhotoURL (jsOr c.currentUserPhoto .null),
            status := "online", isHost := st.isOwner, inCall := false }] }

/-- `autoJoinRoom()` (lines 66-100).  The whole body is wrapped in a
try/catch whose catch swallows the error, so the function never throws;
`joinResult` is the outcome the join POST would produce.  When the
current uid is already in `currentRoomData?.participants || []` no call
is issued.  On a successful join the response's `participantCount` is
read by the success log (a throwing access for a nullish response,
swallowed like every other error) and the local participants list is
extended with the current uid.  A non-array truthy `participants` value
would make `.includes` misbehave in JavaScript; it is not modelled
beyond the swallowed-error outcome, since room records carry arrays. -/
def autoJoinRoom (currentUid : JSVal) (joinResult : Except String JSVal)
    (st : RMState) : RMState × List ApiCall :=
  match jsOr (jget st.currentRoomData "participants") (.arr []) with
  | .arr l =>
    if l.any (fun v => jsStrictEq v currentUid) then (st, [])
    else
      match st.currentRoomData.getProp "_id" with
      | .error _ => (st, [])
      | .ok idv =>
        let roomId := jsTemplateStr (jsOr idv (jget st.currentRoomData "id"))
        match joinResult with
        | .error _ => (st, [.joinRoom roomId])
        | .ok jr =>
          match jr.getProp "participantCount" with
          | .error _ => (st, [.joinRoom roomId])
          | .ok _ =>
            ({ st with currentRoomData :=
                 setProp st.currentRoomData "participants" (.arr (l ++ [currentUid])) },
             [.joinRoom roomId])
  | _ => (st, [])

/-- The environment of one `loadRoomData()` run: the `room` query
parameter (`null` when absent), the outcome of the room GET, the outcome
of the join POST, the enrichment collaborators, and
`userAuth.currentUser.uid` (the page only runs for an authenticated
user, so `currentUser` itself is taken as present). -/
structure LoadEnv where
  roomIdParam : Option String
  fetchRoom : String → Except String JSVal
  joinResult : Except String JSVal
  collab : Collab
  currentUid : JSVal

/-- The catch block of `loadRoomData()` (lines 49-62): loading is marked
complete, a toast is shown, a redirect to `study-rooms.html` is
scheduled after 2000 ms, and the error is rethrown. -/
def loadFailure (st : RMState) (calls : List ApiCall) (e : String) :
    RMState × Effects × Except String JSVal :=
  ({ st with isLoading := false },
   { calls := calls, toasts := ["Failed to load room: " ++ e],
     redirects := [("study-rooms.html", 2000)] },
   .error e)

/-- `loadRoomData()` (lines 14-63): resolve the room id from the URL,
fetch the room, reject a missing/empty body, derive ownership, auto-join
(never throws), enrich participants (never throws), mark loading
complete and return the room record.  Failures in the identifier/fetch
steps take the catch path of `loadFailure`. -/
def loadRoomData (env : LoadEnv) (st0 : RMState) :
    RMState × Effects × Except String JSVal :=
  let st := { st0 with isLoading := true }
  match env.roomIdParam with
  | none => loadFailure st [] "Room ID not found in URL"
  | some rid =>
    match env.fetchRoom rid with
    | .error e => loadFailure st [.getRoom rid] e
    | .ok data =>
      if !data.truthy then loadFailure st [.getRoom rid] "No room data returned"
      else
        let st1 := { st with
          currentRoomData := data
          isOwner := jsStrictEq (jget data "creator") env.currentUid }
        let stepJoin := autoJoinRoom env.currentUid env.joinResult st1
        let st3 := loadParticipantsInfo env.collab env.currentUid stepJoin.1
        ({ st3 with isLoading := false },
         { calls := .getRoom rid :: stepJoin.2, toasts := [], redirects := [] },
         .ok stepJoin.1.currentRoomData)

/-- The local outcome of `kickParticipant`: the spec's `PermissionDenied`
rejection is the owner-guard toast-and-return (lines 417-423),
`cancelled` is the declined confirmation prompt, and the remaining
outcomes mirror the try/catch. -/
inductive KickOutcome where
  | permissionDenied : KickOutcome
  | cancelled : KickOutcome
  | success : KickOutcome
  | failed : String → KickOutcome

/-- `kickParticipant(userId)` (lines 416-455).  `confirmed` is the
answer of the blocking `confirm` prompt and `delResult` the outcome the
DELETE request would produce.  The non-owner guard runs before the
prompt and before any request. -/
def kickParticipant (st : RMState) (userId : JSVal) (confirmed : Bool)
    (delResult : Except String JSVal) : RMState × Effects × KickOutcome :=
  if !st.isOwner then
    (st, { calls := [], toasts := ["Only the room owner can remove participants."],
           redirects := [] }, .permissionDenied)
  else if !confirmed then
    (st, { calls := [], toasts := [], redirects := [] }, .cancelled)
  else
    match st.currentRoomData.getProp "_id" with
    | .error e =>
      (st, { calls := [],
             toasts := ["Could not remove participant: " ++ msgOr e],
             redirects := [] }, .failed e)
    | .ok idv =>
      let roomId := jsTemplateStr (jsOr idv (jget st.currentRoomData "id"))
      let call := ApiCall.kickReq roomId (jsTemplateStr userId)
      match delResult with
      | .error e =>
        (st, { calls := [call],
               toasts := ["Could not remove participant: " ++ msgOr e],
               redirects := [] }, .failed e)
      | .ok _ =>
        ({ st with participants :=
             st.participants.filter (fun p => !jsStrictEq p.id userId) },
         { calls := [call], toasts := ["Participant removed successfully"],
           redirects := [] }, .success)

/-! ## Profile email validation (room-manager.js bundle, lines 1002-1016) -/

/-- The character class `\s` of JavaScript regular expressions. -/
def jsIsSpaceChar (c : Char) : Bool :=
  c == ' ' || c == '\t' || c == '\n' || c == '\r' ||
  c == '\x0b' || c == '\x0c' || c == ' ' || c == ' ' ||
  (' ' ≤ c && c ≤ ' ') || c == ' ' || c == ' ' ||
  c == ' ' || c == ' ' || c == '　' || c == '﻿'

/-- The character class `[^\s@]`. -/
def emailOkChar (c : Char) : Bool :=
  !jsIsSpaceChar c && !(c == '@')

/-- Whether the character list has a `.` that is neither its first nor
its last element — the `[^\s@]+\.[^\s@]+` shape of the domain part,
given that every character is already known to be in `[^\s@]` (which
contains `.`). -/
def hasInnerDot (d : List Char) : Bool :=
  (List.range d.length).any
    (fun i => decide (1 ≤ i) && decide (i + 2 ≤ d.length) && (d.getD i ' ' == '.'))

/-- Full-string match of `/^[^\s@]+@[^\s@]+\.[^\s@]+$/` (line 1003).
A match is a decomposition `L ++ "@" ++ M ++ "." ++ R` with `L`, `M`,
`R` non-empty and all their characters in `[^\s@]`; since none of the
three parts may contain `@`, the string contains exactly one `@`, the
part before it is `L` and the part after it is `M ++ "." ++ R`, i.e. a
non-empty all-`[^\s@]` list with an inner dot. -/
def emailRegexTest (s : String) : Bool :=
  let cs := s.toList
  let locPart := cs.takeWhile (fun c => !(c == '@'))
  let domPart := (cs.dropWhile (fun c => !(c == '@'))).drop 1
  (cs.count '@' == 1) && !locPart.isEmpty && locPart.all emailOkChar &&
    !domPart.isEmpty && domPart.all emailOkChar && hasInnerDot domPart

structure ValidationResult where
  valid : Bool
  message : String

/-- `email.toLowerCase()` (ASCII case folding, the relevant range for
the domain check). -/
def jsToLower (s : String) : String :=
  String.mk (s.toList.map Char.toLower)

/-- `s.endsWith(pat)`. -/
def jsEndsWith (s pat : String) : Bool :=
  pat.toList.isSuffixOf s.toList

/-- `validateEmail(email)` (lines 1002-1016). -/
def validateEmail (email : String) : ValidationResult :=
  if !emailRegexTest email then
    { valid := false, message := "Please enter a valid email address format!" }
  else if !(jsEndsWith (jsToLower email) "@paterostechnologicalcollege.edu.ph") then
    { valid := false,
      message := "Email must be from Pateros Technological College domain (@paterostechnologicalcollege.edu.ph)" }
  else { valid := true, message := "" }

/-! ## Derived predicates and concrete fixtures used by the claims -/

/-- Whether a traced call is the join POST (`POST /rooms/:id/join`). -/
def isJoinCall : ApiCall → Bool
  | .joinRoom _ => true
  | _ => false

/-- The canonical-record field defaults of the spec's data model, for a
record produced at normalization time `now`: `likes` is a number, and
each defaultable field either came through truthy from the source
element or is the documented default. -/
def recordDefaults (now : String) (r : NormalizedPost) : Prop :=
  (∃ n, r.likes = .num n) ∧
  (r.title.truthy = true ∨ r.title = .str "") ∧
  (r.content.truthy = true ∨ r.content = .str "") ∧
  (r.author.truthy = true ∨ r.author = .str "Anonymous") ∧
  (r.authorId.truthy = true ∨ r.authorId = .null) ∧
  (r.created.truthy = true ∨ r.created = .str now)

/-- The elements of a room record's `participants` field (empty when the
field is missing or not an array). -/
def partsList (room : JSVal) : List JSVal :=
  match jget room "participants" with
  | .arr l => l
  | _ => []

/-- The payload of claim C1:
`{posts: [{id:"p1"}, "bad", {id:"p2", likes:"3"}]}`. -/
def c1Payload : JSVal :=
  .obj [("posts", .arr [
    .obj [("id", .str "p1")],
    .str "bad",
    .obj [("id", .str "p2"), ("likes", .str "3")]])]

/-- A `RoomManager` state as left by the constructor (lines 6-12). -/
def st0Init : RMState :=
  { currentRoomData := .null, isOwner := false, participants := [],
    isLoading := true }

/-- Trivial enrichment collaborators for concrete runs: empty batch map,
a fixed single-lookup record, no photos. -/
def noCollab : Collab :=
  { getUserDisplayInfos := fun _ => .ok (fun _ => none),
    getUserDisplayInfo := fun _ => .ok ⟨.str "N", .str "U", .null⟩,
    currentUserPhotoURL := .null, currentUserPhoto := .null,
    dbUserPhoto := fun _ => .ok .undefined }

/-- A room whose membership already contains the current user `u1`. -/
def roomDataA : JSVal :=
  .obj [("id", .str "r1"), ("creator", .str "u1"),
        ("participants", .arr [.str "u1", .str "u2"])]

def envA : LoadEnv :=
  { roomIdParam := some "r1", fetchRoom := fun _ => .ok roomDataA,
    joinResult := .error "join-should-not-be-sent", collab := noCollab,
    currentUid := .str "u1" }

/-- A room whose membership does not contain the current user `u1`. -/
def roomDataB : JSVal :=
  .obj [("_id", .str "r2"), ("creator", .str "u2"),
        ("participants", .arr [.str "u2"])]

def envB : LoadEnv :=
  { roomIdParam := some "r2", fetchRoom := fun _ => .ok roomDataB,
    joinResult := .error "network down", collab := noCollab,
    currentUid := .str "u1" }

/-- The end-to-end room of claim C9: participants `["u1","u2"]`,
creator `u1`, current user `u1`. -/
def roomDataC : JSVal :=
  .obj [("id", .str "r9"), ("creator", .str "u1"),
        ("participants", .arr [.str "u1", .str "u2"])]

def collabC : Collab :=
  { getUserDisplayInfos := fun _ => .ok (fun v =>
      if jsStrictEq v (.str "u1") then some ⟨.str "Alice", .str "A", .null⟩
      else if jsStrictEq v (.str "u2") then some ⟨.str "Bob", .str "B", .null⟩
      else none),
    getUserDisplayInfo := fun _ => .ok ⟨.str "N", .str "U", .null⟩,
    currentUserPhotoURL := .null, currentUserPhoto := .null,
    dbUserPhoto := fun _ => .ok .undefined }

def envC : LoadEnv :=
  { roomIdParam := some "r9", fetchRoom := fun _ => .ok roomDataC,
    joinResult := .ok (.obj [("participantCount", .num 2)]),
    collab := collabC, currentUid := .str "u1" }

/-- The mid-load state for `roomDataC` with ownership already derived,
as `loadParticipantsInfo` receives it. -/
def stC : RMState :=
  { currentRoomData := roomDataC, isOwner := true, participants := [],
    isLoading := true }

/-! ## Helper lemmas -/

theorem getProp_ok_of_truthy (v : JSVal) (k : String) (h : v.truthy = true) :
    v.getProp k = .ok (jget v k) := by
  cases v <;> simp_all [JSVal.truthy, JSVal.getProp]

theorem getProp_ok_of_ne (v : JSVal) (k : String) (h1 : v ≠ .null)
    (h2 : v ≠ .undefined) : v.getProp k = .ok (jget v k) := by
  cases v <;> simp_all [JSVal.getProp]

theorem typeofStr_number {v : JSVal} (h : v.typeofStr = "number") :
    ∃ n, v = .num n := by
  cases v <;> simp_all [JSVal.typeofStr]

theorem normalizePost_defaults (now : String) (p : JSVal) (r : NormalizedPost)
    (h : normalizePost now p = some r) : recordDefaults now r := by
  unfold normalizePost at h
  split at h
  · exact absurd h (by simp)
  · rw [Option.some.injEq] at h
    subst h
    refine ⟨?_, ?_, ?_, ?_, ?_, ?_⟩
    · by_cases hn : (jget p "likes").typeofStr == "number"
      · rcases typeofStr_number (by simpa using hn) with ⟨n, hn2⟩
        exact ⟨n, by simp [hn2, JSVal.typeofStr]⟩
      · exact ⟨0, by simp [hn]⟩
    · by_cases ht : (jget p "title").truthy <;> simp [jsOr, ht]
    · by_cases ht : (jget p "content").truthy <;> simp [jsOr, ht]
    · by_cases ht : (jget p "author").truthy <;> simp [jsOr, ht]
    · by_cases h1 : (jget p "author_id").truthy <;>
        by_cases h2 : (jget p "authorId").truthy <;> simp [jsOr, h1, h2]
    · by_cases h1 : (jget p "created_at").truthy <;>
        by_cases h2 : (jget p "created").truthy <;> simp [jsOr, h1, h2]

/-! ## Claim theorems -/

/-- Claim C1: for the payload
`{posts: [{id:"p1"}, "bad", {id:"p2", likes:"3"}]}` and a non-empty
`topicId`, `getTopicPosts` returns exactly two normalized records, one
for `p1` and one for `p2`, both with `likes = 0`: the string element is
dropped and the string `"3"` is not of numeric type, so the default `0`
is substituted. -/
theorem getTopicPosts_c1_two_records (topicId : JSVal) (now : String)
    (h : topicId.truthy = true) :
    getTopicPosts topicId now (.ok c1Payload) = .ok [
      { id := .str "p1", title := .str "", content := .str "",
        author := .str "Anonymous", author_id := .null, userId := .null,
        authorId := .null, created_at := .str now, created := .str now,
        likes := .num 0, comments := .num 0, author_avatar := .null },
      { id := .str "p2", title := .str "", content := .str "",
        author := .str "Anonymous", author_id := .null, userId := .null,
        authorId := .null, created_at := .str now, created := .str now,
        likes := .num 0, comments := .num 0, author_avatar := .null }] := by
  unfold getTopicPosts
  rw [h]
  rfl

/-- Witness for C1 at the concrete topic id `"t1"`. -/
theorem getTopicPosts_c1_two_records_witness :
    getTopicPosts (.str "t1") "2024-01-01T00:00:00.000Z" (.ok c1Payload) = .ok [
      { id := .str "p1", title := .str "", content := .str "",
        author := .str "Anonymous", author_id := .null, userId := .null,
        authorId := .null, created_at := .str "2024-01-01T00:00:00.000Z",
        created := .str "2024-01-01T00:00:00.000Z",
        likes := .num 0, comments := .num 0, author_avatar := .null },
      { id := .str "p2", title := .str "", content := .str "",
        author := .str "Anonymous", author_id := .null, userId := .null,
        authorId := .null, created_at := .str "2024-01-01T00:00:00.000Z",
        created := .str "2024-01-01T00:00:00.000Z",
        likes := .num 0, comments := .num 0, author_avatar := .null }] :=
  getTopicPosts_c1_two_records (.str "t1") "2024-01-01T00:00:00.000Z" rfl

/-- Claim C4: for every participant id, when the caller's ownership flag
is false, `kickParticipant` issues no network call, rejects locally
(the spec's `PermissionDenied`, surfaced as the owner-guard toast), and
leaves the whole view-model state unchanged. -/
theorem kickParticipant_permissionDenied (st : RMState) (userId : JSVal)
    (confirmed : Bool) (delResult : Except String JSVal)
    (h : st.isOwner = false) :
    kickParticipant st userId confirmed delResult =
      (st, { calls := [], toasts := ["Only the room owner can remove participants."],
             redirects := [] }, .permissionDenied) := by
  simp [kickParticipant, h]

/-- Witness for C4 on a concrete non-owner state. -/
theorem kickParticipant_permissionDenied_witness :
    kickParticipant st0Init (.str "u2") true (.ok .null) =
      (st0Init, { calls := [], toasts := ["Only the room owner can remove participants."],
                  redirects := [] }, .permissionDenied) :=
  kickParticipant_permissionDenied st0Init (.str "u2") true (.ok .null) rfl

/-- Claim C5: for every falsy `postId`, `togglePostLike` fails with the
`postId required` guard (the spec's `InvalidArgument`) and the call
trace is empty: no POST is issued. -/
theorem togglePostLike_invalidArgument (postId : JSVal)
    (postResult : Except String JSVal) (h : postId.truthy = false) :
    togglePostLike postId postResult = (.error "postId required", []) := by
  simp [togglePostLike, h]

/-- Witness for C5 at the three falsy spellings the claim lists:
missing (`undefined`), empty string, and `null`. -/
theorem togglePostLike_invalidArgument_witness :
    togglePostLike .undefined (.ok .null) = (.error "postId required", []) ∧
    togglePostLike (.str "") (.ok .null) = (.error "postId required", []) ∧
    togglePostLike .null (.ok .null) = (.error "postId required", []) :=
  ⟨togglePostLike_invalidArgument .undefined (.ok .null) rfl,
   togglePostLike_invalidArgument (.str "") (.ok .null) rfl,
   togglePostLike_invalidArgument .null (.ok .null) rfl⟩

/-- Claim C8: on each unrecoverable failure of `loadRoomData` — missing
room id in the URL, a failed room fetch, or an empty fetched body — the
operation marks loading complete (`isLoading = false`), shows one toast,
schedules one redirect to `study-rooms.html` after the fixed 2000 ms
delay, and re-raises the error to its caller. -/
theorem loadRoomData_failurePath (env : LoadEnv) (st0 : RMState) :
    (env.roomIdParam = none →
      loadRoomData env st0 =
        ({ st0 with isLoading := false },
         { calls := [],
           toasts := ["Failed to load room: Room ID not found in URL"],
           redirects := [("study-rooms.html", 2000)] },
         .error "Room ID not found in URL")) ∧
    (∀ rid e, env.roomIdParam = some rid → env.fetchRoom rid = .error e →
      loadRoomData env st0 =
        ({ st0 with isLoading := false },
         { calls := [.getRoom rid], toasts := ["Failed to load room: " ++ e],
           redirects := [("study-rooms.html", 2000)] },
         .error e)) ∧
    (∀ rid data, env.roomIdParam = some rid → env.fetchRoom rid = .ok data →
      data.truthy = false →
      loadRoomData env st0 =
        ({ st0 with isLoading := false },
         { calls := [.getRoom rid],
           toasts := ["Failed to load room: No room data returned"],
           redirects := [("study-rooms.html", 2000)] },
         .error "No room data returned")) := by
  refine ⟨?_, ?_, ?_⟩
  · intro h
    simp [loadRoomData, h, loadFailure]
  · intro rid e h1 h2
    simp [loadRoomData, h1, h2, loadFailure]
  · intro rid data h1 h2 h3
    simp [loadRoomData, h1, h2, h3, loadFailure]

/-- Witness for C8: a run with no `room` query parameter. -/
theorem loadRoomData_failurePath_witness :
    loadRoomData { roomIdParam := none, fetchRoom := fun _ => .ok .null,
                   joinResult := .ok .null, collab := noCollab,
                   currentUid := .str "u1" } st0Init =
      ({ st0Init with isLoading := false },
       { calls := [],
         toasts := ["Failed to load room: Room ID not found in URL"],
         redirects := [("study-rooms.html", 2000)] },
       .error "Room ID not found in URL") :=
  (loadRoomData_failurePath _ st0Init).1 rfl

/-- Claim C10: the profile page's `validateEmail` accepts an email
string exactly when it matches the one-`@`-with-a-dotted-domain pattern
and, lowercased, ends with `@paterostechnologicalcollege.edu.ph`; every
rejected string gets a non-empty validation error message, so an email
outside the college domain can never validate. -/
theorem validateEmail_characterization (email : String) :
    ((validateEmail email).valid = true ↔
      (emailRegexTest email = true ∧
       jsEndsWith (jsToLower email) "@paterostechnologicalcollege.edu.ph" = true)) ∧
    ((validateEmail email).valid = false →
      (validateEmail email).message ≠ "") := by
  unfold validateEmail
  cases h1 : emailRegexTest email <;>
    cases h2 : jsEndsWith (jsToLower email) "@paterostechnologicalcollege.edu.ph" <;>
      simp [h1, h2]

set_option maxRecDepth 8192 in
/-- Witness for C10: a college-domain email validates. -/
theorem validateEmail_characterization_witness :
    (validateEmail "ab@paterostechnologicalcollege.edu.ph").valid = true :=
  (validateEmail_characterization "ab@paterostechnologicalcollege.edu.ph").1.mpr
    ⟨by decide, by decide⟩

theorem jsStrictEq_boolTrue (v : JSVal) :
    jsStrictEq v (.bool true) = true ↔ v = .bool true := by
  cases v <;> simp [jsStrictEq]

/-- Counterexample to claim C6 as stated: the empty JSON array is not a
JSON object, yet `togglePostLike` does not fail with `InvalidResponse` —
`typeof [] === "object"` lets arrays through the validation, and the
call succeeds with the all-default record. -/
theorem togglePostLike_array_passes_validation :
    togglePostLike (.str "p1") (.ok (.arr [])) =
      (.ok { liked := false, likes := 0, post_id := .str "p1" },
       [.likePost "p1"]) := rfl

/-- Claim C6 (amended): exactly one POST is issued; the call fails with
`Invalid response from server` precisely when the response is falsy or
not of `typeof === "object"` type — a JSON array counts as object-typed
and passes validation; on success, `liked` is true exactly when the
response's `liked` field is strictly the boolean `true`, and `likes`
equals the response's `likes` field when it is of numeric type and `0`
otherwise. -/
theorem togglePostLike_response_validation (postId resp : JSVal)
    (h : postId.truthy = true) :
    ((togglePostLike postId (.ok resp)).1 =
        .error "Toggle like failed: Invalid response from server" ↔
      (resp.truthy = false ∨ resp.typeofStr ≠ "object")) ∧
    (∀ r, (togglePostLike postId (.ok resp)).1 = .ok r →
      ((r.liked = true ↔ jget resp "liked" = .bool true) ∧
       (∀ n, jget resp "likes" = .num n → r.likes = n) ∧
       ((∀ n, jget resp "likes" ≠ .num n) → r.likes = 0))) ∧
    (togglePostLike postId (.ok resp)).2 = [.likePost (jsTemplateStr postId)] := by
  cases hT : resp.truthy <;> cases hO : resp.typeofStr == "object"
  case false.false | false.true =>
    have hres : togglePostLike postId (.ok resp) =
        (.error "Toggle like failed: Invalid response from server",
         [.likePost (jsTemplateStr postId)]) := by
      unfold togglePostLike
      rw [h]
      simp [hT]
    exact ⟨by simp [hres, hT], by simp [hres], by simp [hres]⟩
  case true.false =>
    have hres : togglePostLike postId (.ok resp) =
        (.error "Toggle like failed: Invalid response from server",
         [.likePost (jsTemplateStr postId)]) := by
      unfold togglePostLike
      rw [h]
      simp [hT, hO]
    rw [beq_eq_false_iff_ne] at hO
    exact ⟨by simp [hres, hO], by simp [hres], by simp [hres]⟩
  case true.true =>
    rw [beq_iff_eq] at hO
    have hres : togglePostLike postId (.ok resp) =
        (.ok { liked := jsStrictEq (jget resp "liked") (.bool true),
               likes := match jget resp "likes" with | .num n => n | _ => 0,
               post_id := jsOr (jget resp "post_id") postId },
         [.likePost (jsTemplateStr postId)]) := by
      unfold togglePostLike
      rw [h]
      simp [hT, hO]
    refine ⟨by simp [hres, hO], ?_, by simp [hres]⟩
    intro r hr
    rw [hres] at hr
    simp only [Except.ok.injEq] at hr
    subst hr
    refine ⟨jsStrictEq_boolTrue _, ?_, ?_⟩
    · intro n hn
      simp [hn]
    · intro hn
      cases hl : jget resp "likes" <;> simp_all

/-- Witness for the amended C6 at a well-formed response. -/
theorem togglePostLike_response_validation_witness :
    (togglePostLike (.str "p1")
        (.ok (.obj [("liked", .bool true), ("likes", .num 5)]))).2 =
      [.likePost "p1"] :=
  (togglePostLike_response_validation (.str "p1")
    (.obj [("liked", .bool true), ("likes", .num 5)]) rfl).2.2

/-- Claim C2: the code contradicts the claim (and its own intent) at the
payload `null`: the access `resp.posts` throws before the null-guard on
the following line can run, so `getTopicPosts` raises instead of
returning an empty sequence.  For every non-nullish payload the claim's
guarantees do hold: normalization never raises, every non-object element
is dropped, and every produced record satisfies the canonical-record
field defaults. -/
theorem getTopicPosts_malformed_handling :
    (∀ now, getTopicPosts (.str "t") now (.ok .null) =
      .error "GET /api/topics/:id/posts failed: TypeError: cannot read property posts of null") ∧
    (∀ now p, (p.truthy = false ∨ p.typeofStr ≠ "object") →
      normalizePost now p = none) ∧
    (∀ now resp, resp ≠ .null → resp ≠ .undefined →
      ∃ l, getTopicPostsNormalize now resp = .ok l ∧
        ∀ r ∈ l, recordDefaults now r) := by
  refine ⟨fun now => rfl, ?_, ?_⟩
  · intro now p h
    unfold normalizePost
    rcases h with h | h
    · simp [h]
    · simp [h]
  · intro now resp h1 h2
    unfold getTopicPostsNormalize
    cases hA : resp.isArray
    · rw [getProp_ok_of_ne resp "posts" h1 h2]
      simp only [Bool.false_eq_true, if_false]
      refine ⟨_, rfl, ?_⟩
      intro r hr
      rw [List.mem_filterMap] at hr
      obtain ⟨p, _, hp⟩ := hr
      exact normalizePost_defaults now p r hp
    · simp only [hA, if_true]
      refine ⟨_, rfl, ?_⟩
      intro r hr
      rw [List.mem_filterMap] at hr
      obtain ⟨p, _, hp⟩ := hr
      exact normalizePost_defaults now p r hp

/-- Witness for C2's non-nullish guarantee at a malformed string
payload. -/
theorem getTopicPosts_malformed_handling_witness :
    ∃ l, getTopicPostsNormalize "2024-01-01" (.str "oops") = .ok l ∧
      ∀ r ∈ l, recordDefaults "2024-01-01" r :=
  getTopicPosts_malformed_handling.2.2 "2024-01-01" (.str "oops")
    (fun h => nomatch h) (fun h => nomatch h)

theorem loadParticipantsInfo_currentRoomData (c : Collab) (uid : JSVal)
    (st : RMState) :
    (loadParticipantsInfo c uid st).currentRoomData = st.currentRoomData := by
  unfold loadParticipantsInfo
  split
  · dsimp only
    split
    · rfl
    · split <;> rfl
  · split <;> rfl

theorem loadRoomData_success_eq (env : LoadEnv) (st0 : RMState) (rid : String)
    (data : JSVal) (h1 : env.roomIdParam = some rid)
    (h2 : env.fetchRoom rid = .ok data) (h3 : data.truthy = true) :
    loadRoomData env st0 =
      (let st1 : RMState := { st0 with
         isLoading := true
         currentRoomData := data
         isOwner := jsStrictEq (jget data "creator") env.currentUid }
       let stepJoin := autoJoinRoom env.currentUid env.joinResult st1
       let st3 := loadParticipantsInfo env.collab env.currentUid stepJoin.1
       ({ st3 with isLoading := false },
        { calls := .getRoom rid :: stepJoin.2, toasts := [], redirects := [] },
        .ok stepJoin.1.currentRoomData)) := by
  unfold loadRoomData
  rw [h1]
  dsimp only
  rw [h2]
  simp [h3]

theorem autoJoinRoom_skip (uid : JSVal) (jr : Except String JSVal)
    (st : RMState) (l : List JSVal)
    (h4 : jget st.currentRoomData "participants" = .arr l)
    (h5 : l.any (fun v => jsStrictEq v uid) = true) :
    autoJoinRoom uid jr st = (st, []) := by
  unfold autoJoinRoom
  rw [h4]
  simp [jsOr, JSVal.truthy, h5]

theorem autoJoinRoom_sendsJoin (uid : JSVal) (jr : Except String JSVal)
    (st : RMState) (l : List JSVal)
    (h4 : jget st.currentRoomData "participants" = .arr l)
    (h5 : l.any (fun v => jsStrictEq v uid) = false)
    (h6 : st.currentRoomData.truthy = true) :
    (autoJoinRoom uid jr st).2 =
      [.joinRoom (jsTemplateStr (jsOr (jget st.currentRoomData "_id")
        (jget st.currentRoomData "id")))] ∧
    (∀ e, jr = .error e → (autoJoinRoom uid jr st).1 = st) := by
  unfold autoJoinRoom
  rw [h4]
  rw [getProp_ok_of_truthy _ _ h6]
  cases jr with
  | error e => simp [jsOr, JSVal.truthy, h5]
  | ok v =>
    cases v <;> simp [jsOr, JSVal.truthy, h5, JSVal.getProp]

/-- Claim C7: when the fetched room's membership list already contains
the current user's id, `loadRoomData` issues no join call. -/
theorem loadRoomData_noJoin_whenMember (env : LoadEnv) (st0 : RMState)
    (rid : String) (data : JSVal) (l : List JSVal)
    (h1 : env.roomIdParam = some rid)
    (h2 : env.fetchRoom rid = .ok data)
    (h3 : data.truthy = true)
    (h4 : jget data "participants" = .arr l)
    (h5 : l.any (fun v => jsStrictEq v env.currentUid) = true) :
    (loadRoomData env st0).2.1.calls.filter isJoinCall = [] := by
  have hs := loadRoomData_success_eq env st0 rid data h1 h2 h3
  have hj := autoJoinRoom_skip env.currentUid env.joinResult
    { st0 with
      isLoading := true
      currentRoomData := data
      isOwner := jsStrictEq (jget data "creator") env.currentUid } l h4 h5
  rw [hs]
  simp only [hj]
  simp [isJoinCall]

/-- Witness for C7: the current user `u1` is already a member of
`roomDataA`, and the run issues no join call. -/
theorem loadRoomData_noJoin_whenMember_witness :
    (loadRoomData envA st0Init).2.1.calls.filter isJoinCall = [] :=
  loadRoomData_noJoin_whenMember envA st0Init "r1" roomDataA
    [.str "u1", .str "u2"] rfl rfl rfl rfl rfl

/-- Claim C3: when the fetched room's membership list does not contain
the current user's id, `loadRoomData` issues exactly one join request;
and if that join request fails, the load still completes without raising
(the room record is returned), and participant enrichment proceeds on
the membership list as fetched before the join (the room record, and
hence its participants list, is unchanged by the failed join). -/
theorem loadRoomData_autoJoin_once (env : LoadEnv) (st0 : RMState)
    (rid : String) (data : JSVal) (l : List JSVal)
    (h1 : env.roomIdParam = some rid)
    (h2 : env.fetchRoom rid = .ok data)
    (h3 : data.truthy = true)
    (h4 : jget data "participants" = .arr l)
    (h5 : l.any (fun v => jsStrictEq v env.currentUid) = false) :
    ((loadRoomData env st0).2.1.calls.filter isJoinCall).length = 1 ∧
    (∀ e, env.joinResult = .error e →
      (loadRoomData env st0).2.2 = .ok data ∧
      (loadRoomData env st0).1.currentRoomData = data ∧
      (loadRoomData env st0).1.participants =
        (loadParticipantsInfo env.collab env.currentUid
          { st0 with
            isLoading := true
            currentRoomData := data
            isOwner := jsStrictEq (jget data "creator")
              env.currentUid }).participants) := by
  have hs := loadRoomData_success_eq env st0 rid data h1 h2 h3
  have hj := autoJoinRoom_sendsJoin env.currentUid env.joinResult
    { st0 with
      isLoading := true
      currentRoomData := data
      isOwner := jsStrictEq (jget data "creator") env.currentUid } l h4 h5 h3
  constructor
  · rw [hs]
    simp only [hj.1]
    simp [isJoinCall]
  · intro e he
    have h1j := hj.2 e he
    rw [hs]
    refine ⟨?_, ?_, ?_⟩
    · simp only [h1j]
    · simp only [loadParticipantsInfo_currentRoomData, h1j]
    · simp only [h1j]

/-- Witness for C3: `u1` is not a member of `roomDataB` and the join
fails with a network error; exactly one join call is traced and the load
still returns the fetched room record. -/
theorem loadRoomData_autoJoin_once_witness :
    ((loadRoomData envB st0Init).2.1.calls.filter isJoinCall).length = 1 ∧
    (loadRoomData envB st0Init).2.2 = .ok roomDataB := by
  have h := loadRoomData_autoJoin_once envB st0Init "r2" roomDataB
    [.str "u2"] rfl rfl rfl rfl rfl
  exact ⟨h.1, (h.2 "network down" rfl).1⟩

theorem jsStrictEq_refl_prim (v : JSVal) (h : v.isPrim = true) :
    jsStrictEq v v = true := by
  cases v <;> simp_all [JSVal.isPrim, jsStrictEq]

theorem mem_of_mem_jsSetDedupAux :
    ∀ (l seen : List JSVal) (b : JSVal), b ∈ jsSetDedupAux seen l → b ∈ l := by
  intro l
  induction l with
  | nil => intro seen b h; simp [jsSetDedupAux] at h
  | cons a t ih =>
    intro seen b h
    unfold jsSetDedupAux at h
    split at h
    · exact List.mem_cons_of_mem a (ih seen b h)
    · rcases List.mem_cons.mp h with h1 | h1
      · exact h1 ▸ List.mem_cons_self a t
      · exact List.mem_cons_of_mem a (ih (a :: seen) b h1)

theorem not_seen_of_mem_jsSetDedupAux :
    ∀ (l seen : List JSVal) (b : JSVal), b ∈ jsSetDedupAux seen l →
      seen.any (fun x => jsStrictEq b x) = false := by
  intro l
  induction l with
  | nil => intro seen b h; simp [jsSetDedupAux] at h
  | cons a t ih =>
    intro seen b h
    unfold jsSetDedupAux at h
    split at h
    · exact ih seen b h
    · rcases List.mem_cons.mp h with h1 | h1
      · subst h1
        rename_i hcond
        simpa using hcond
      · have hh := ih (a :: seen) b h1
        simp only [List.any_cons, Bool.or_eq_false_iff] at hh
        exact hh.2

theorem nodup_jsSetDedupAux :
    ∀ (l seen : List JSVal), (∀ v ∈ l, v.isPrim = true) →
      (jsSetDedupAux seen l).Nodup := by
  intro l
  induction l with
  | nil => intro seen _; simp [jsSetDedupAux]
  | cons a t ih =>
    intro seen hp
    unfold jsSetDedupAux
    split
    · exact ih seen (fun v hv => hp v (List.mem_cons_of_mem a hv))
    · refine List.nodup_cons.mpr
        ⟨?_, ih (a :: seen) (fun v hv => hp v (List.mem_cons_of_mem a hv))⟩
      intro hmem
      have hns := not_seen_of_mem_jsSetDedupAux t (a :: seen) a hmem
      simp only [List.any_cons, Bool.or_eq_false_iff] at hns
      have hrefl := jsStrictEq_refl_prim a (hp a (List.mem_cons_self a t))
      rw [hns.1] at hrefl
      exact Bool.false_ne_true hrefl

theorem buildTry_fields (c : Collab) (m : JSVal → Option DisplayInfo)
    (cr cu uid : JSVal) (p : Participant)
    (h : buildTry c m cr cu uid = .ok p) :
    p.id = uid ∧ p.isHost = jsStrictEq cr uid := by
  unfold buildTry at h
  split at h
  · exact absurd h (by simp)
  · dsimp only at h
    split at h
    · exact absurd h (by simp)
    · rw [Except.ok.injEq] at h
      subst h
      exact ⟨rfl, rfl⟩

theorem buildParticipant_fields (c : Collab) (m : JSVal → Option DisplayInfo)
    (cr cu uid : JSVal) (p : Participant)
    (h : buildParticipant c m cr cu uid = .ok p) :
    p.id = uid ∧ p.isHost = jsStrictEq cr uid := by
  unfold buildParticipant at h
  split at h
  · rename_i q hq
    rw [Except.ok.injEq] at h
    subst h
    exact buildTry_fields c m cr cu uid q hq
  · split at h
    · rw [Except.ok.injEq] at h
      subst h
      exact ⟨rfl, rfl⟩
    · exact absurd h (by simp)

theorem mapE_ok_map_id (f : JSVal → Except String Participant)
    (hf : ∀ a p, f a = .ok p → p.id = a) :
    ∀ l ps, mapE f l = .ok ps → ps.map (fun p => p.id) = l := by
  intro l
  induction l with
  | nil =>
    intro ps h
    simp only [mapE, Except.ok.injEq] at h
    subst h
    rfl
  | cons a t ih =>
    intro ps h
    cases hfa : f a with
    | error e => simp [mapE, hfa] at h
    | ok p =>
      cases hmt : mapE f t with
      | error e => simp [mapE, hfa, hmt] at h
      | ok ps' =>
        simp only [mapE, hfa, hmt, Except.ok.injEq] at h
        subst h
        simp only [List.map_cons]
        rw [hf a p hfa, ih ps' hmt]

theorem mapE_ok_mem (f : JSVal → Except String Participant) :
    ∀ l ps p, mapE f l = .ok ps → p ∈ ps → ∃ a ∈ l, f a = .ok p := by
  intro l
  induction l with
  | nil =>
    intro ps p h hp
    simp only [mapE, Except.ok.injEq] at h
    subst h
    simp at hp
  | cons a t ih =>
    intro ps p h hp
    cases hfa : f a with
    | error e => simp [mapE, hfa] at h
    | ok q =>
      cases hmt : mapE f t with
      | error e => simp [mapE, hfa, hmt] at h
      | ok ps' =>
        simp only [mapE, hfa, hmt, Except.ok.injEq] at h
        subst h
        rcases List.mem_cons.mp hp with h1 | h1
        · subst h1
          exact ⟨a, List.mem_cons_self a t, hfa⟩
        · obtain ⟨a', ha', hfa'⟩ := ih ps' p hmt h1
          exact ⟨a', List.mem_cons_of_mem a ha', hfa'⟩

/-- Claim C9: the participant sequence produced by participant
enrichment is deduplicated by id, and every produced record has
`isHost` true exactly when its id equals the room's creator id (given
the cached ownership flag, used by the self-only branch, is itself the
creator comparison — which `loadRoomData` establishes); and the
end-to-end run on a room with participants `["u1","u2"]`, current user
`"u1"`, creator `"u1"` yields the ownership flag true and the two
records with `u1.isHost = true` and `u2.isHost = false`. -/
theorem loadParticipants_dedup_isHost :
    (∀ (c : Collab) (uid : JSVal) (st : RMState),
      (∀ v ∈ partsList st.currentRoomData, v.truthy = true → v.isPrim = true) →
      st.isOwner = jsStrictEq (jget st.currentRoomData "creator") uid →
      ((loadParticipantsInfo c uid st).participants.map (fun p => p.id)).Nodup ∧
      (∀ p ∈ (loadParticipantsInfo c uid st).participants,
        p.isHost = jsStrictEq (jget st.currentRoomData "creator") p.id)) ∧
    ((loadRoomData envC st0Init).1.isOwner = true ∧
     (loadRoomData envC st0Init).1.participants.map
       (fun p => (p.id, p.isHost)) = [(.str "u1", true), (.str "u2", false)]) := by
  constructor
  · intro c uid st hp hown
    unfold loadParticipantsInfo
    split
    · rename_i x a l heq
      have hp2 : ∀ v ∈ a :: l, v.truthy = true → v.isPrim = true := by
        intro v hv
        exact hp v (by simp [partsList, heq, hv])
      dsimp only
      split
      · simp
      · split
        · simp
        · rename_i xa infosMap hinfos xb ps hmap
          have hf : ∀ a p, buildParticipant c infosMap
              (jget st.currentRoomData "creator") uid a = .ok p → p.id = a :=
            fun a p h => (buildParticipant_fields c infosMap _ uid a p h).1
          constructor
          · rw [mapE_ok_map_id _ hf _ _ hmap]
            apply nodup_jsSetDedupAux
            intro v hv
            exact hp2 v (List.mem_filter.mp hv).1
              (by simpa using (List.mem_filter.mp hv).2)
          · intro p hpmem
            obtain ⟨a', _, hb⟩ := mapE_ok_mem _ _ _ p hmap hpmem
            obtain ⟨hid, hhost⟩ :=
              buildParticipant_fields c infosMap _ uid a' p hb
            rw [hhost, hid]
    · split
      · simp
      · constructor
        · simp
        · intro p hpmem
          simp only [List.mem_singleton] at hpmem
          subst hpmem
          exact hown
  · exact ⟨rfl, rfl⟩

/-- Witness for C9's general part at the concrete mid-load state of
`roomDataC`. -/
theorem loadParticipants_dedup_isHost_witness :
    ((loadParticipantsInfo collabC (.str "u1") stC).participants.map
      (fun p => p.id)).Nodup ∧
    (∀ p ∈ (loadParticipantsInfo collabC (.str "u1") stC).participants,
      p.isHost = jsStrictEq (jget stC.currentRoomData "creator") p.id) :=
  loadParticipants_dedup_isHost.1 collabC (.str "u1") stC
    (by intro v hv; fin_cases hv <;> simp [JSVal.isPrim]) rfl
